import Mathlib

/-!
Verification of the process-supervision subsystem of `gtecs.common`
(`gtecs/common/system.py`): instance locking via PID files, PID-record
query/clear, local/remote process killing, short-command execution and
the `NeatCloser` signal-driven shutdown handler.

The Python functions are shallowly embedded: the external effects of
`subprocess.getoutput` are modelled by an oracle (a pure function from
command strings to output strings, recorded in a trace of issued
commands), the outward-facing-IP probe of `get_local_ip` by an
`Option String`, and exceptions by an explicit error type.
-/

namespace GtecsCommon

/-- Exceptions raised by `gtecs/common/system.py`.  `MultipleProcessError`
is defined in the module itself; `ConnectionError` and `ValueError` are
the Python builtins it raises (`ValueError` arises from `int(output)`). -/
inductive SysError where
  | MultipleProcessError (msg : String)
  | ConnectionError (msg : String)
  | ValueError (msg : String)
  deriving DecidableEq, Repr

/-- Substring containment, embedding the Python operator `in` on strings. -/
def hasSubstr (s pat : String) : Bool :=
  decide (pat.toList <:+: s.toList)

/-- The environment of a run: `localIp` is the outward-facing IP the UDP
probe in `get_local_ip` would report (`none` when the probe raises), and
`getoutput` is the behaviour of `subprocess.getoutput`, mapping each
shell command string to its combined output.  `configPath` is the string
form of `config.CONFIG_PATH`. -/
structure World where
  localIp : Option String
  configPath : String
  getoutput : String → String

/-- Embeds `get_local_ip`: returns the address the probe socket reports,
falling back to the loopback literal when the attempt raises. -/
def get_local_ip (w : World) : String :=
  match w.localIp with
  | some ip => ip
  | none => "127.0.0.1"

/-- Embeds the guard testing membership of `host` in the two-element
list of the loopback literal and `get_local_ip()`, used (negated) by
`kill_process`, `get_pid` and `clear_pid` to decide remote dispatch. -/
def hostIsLocal (w : World) (host : String) : Bool :=
  ["127.0.0.1", get_local_ip w].contains host

/-- Embeds the ssh wrapping of a command: the format string
interpolating the host and the single-quoted command. -/
def sshWrap (host cmd : String) : String :=
  "ssh " ++ host ++ " \x27" ++ cmd ++ "\x27"

/-- Embeds the record path built from `get_pid_path()` and the task
name with a `.pid` suffix: `<config_dir>/pid/<name>.pid`. -/
def pidPath (w : World) (pid_name : String) : String :=
  w.configPath ++ "/pid/" ++ pid_name ++ ".pid"

/-- Digits of a decimal literal to a natural number. -/
def digitsToNat (cs : List Char) : Nat :=
  cs.foldl (fun acc c => acc * 10 + (c.toNat - Char.toNat '0')) 0

/-- The whitespace characters the Python builtin `int` strips from
both ends of its argument (space, tab, newline, carriage return,
vertical tab, form feed). -/
def pyIsSpace (c : Char) : Bool :=
  c == ' ' || c == '\t' || c == '\n' || c == '\r' || c == '\x0b' || c == '\x0c'

/-- Strip leading and trailing whitespace from a character list. -/
def pyStrip (cs : List Char) : List Char :=
  ((cs.dropWhile pyIsSpace).reverse.dropWhile pyIsSpace).reverse

/-- Embeds the Python builtin `int(s)` on the strings this module feeds it:
surrounding whitespace is stripped, an optional sign is allowed, and the
rest must be one or more decimal digits; otherwise `int` raises
`ValueError`.  (Digit-group underscores, accepted by `int` since Python
3.6, are not modelled; no claim depends on them.) -/
def pyInt (s : String) : Option Int :=
  let cs := pyStrip s.toList
  let signAndDigits : Bool × List Char :=
    match cs with
    | '-' :: rest => (true, rest)
    | '+' :: rest => (false, rest)
    | _ => (false, cs)
  let neg := signAndDigits.1
  let ds := signAndDigits.2
  if !ds.isEmpty && ds.all Char.isDigit then
    let n : Int := Int.ofNat (digitsToNat ds)
    some (if neg then -n else n)
  else
    none

/-- Embeds the string formatting of the optional PID that `get_pid`
returns, as interpolated into the kill command: `None` prints as the
four-letter string `"None"`. -/
def pyShowOptInt : Option Int → String
  | none => "None"
  | some n => toString n

/-- The command string `get_pid` builds before the local/remote branch. -/
def catCmd (w : World) (pid_name : String) : String :=
  "cat " ++ pidPath w pid_name

/-- The command `get_pid` finally issues (ssh-wrapped when remote). -/
def getPidCmd (w : World) (pid_name host : String) : String :=
  if hostIsLocal w host then catCmd w pid_name
  else sshWrap host (catCmd w pid_name)

/-- Embeds `get_pid(pid_name, host)`.  Returns the parsed PID (`none`
when the probe reports no such file), or the raised exception; the
second component is the list of commands passed to
`subprocess.getoutput`, in order. -/
def get_pid (w : World) (pid_name host : String) :
    Except SysError (Option Int) × List String :=
  let cmd := getPidCmd w pid_name host
  let output := w.getoutput cmd
  if hasSubstr output "No route to host" then
    (Except.error (SysError.ConnectionError ("Cannot connect to host " ++ host)), [cmd])
  else if hasSubstr output "No such file or directory" then
    (Except.ok none, [cmd])
  else
    match pyInt output with
    | some n => (Except.ok (some n), [cmd])
    | none => (Except.error (SysError.ValueError output), [cmd])

/-- The command `clear_pid` issues (ssh-wrapped when remote). -/
def clearCmd (w : World) (pid_name host : String) : String :=
  let cmd := "rm " ++ pidPath w pid_name
  if hostIsLocal w host then cmd else sshWrap host cmd

/-- Embeds `clear_pid(pid_name, host)`: issues `rm` on the record path,
raises `ConnectionError` on a no-route report, returns `0` when the
output is empty or reports no such file, else `1`. -/
def clear_pid (w : World) (pid_name host : String) :
    Except SysError Nat × List String :=
  let cmd := clearCmd w pid_name host
  let output := w.getoutput cmd
  if hasSubstr output "No route to host" then
    (Except.error (SysError.ConnectionError ("Cannot connect to host " ++ host)), [cmd])
  else if !output.isEmpty && !hasSubstr output "No such file or directory" then
    (Except.ok 1, [cmd])
  else
    (Except.ok 0, [cmd])

/-- The termination command `kill_process` issues for a resolved PID
value (ssh-wrapped when remote). -/
def killCmd (w : World) (host : String) (pidVal : Option Int) : String :=
  let cmd := "kill -9 " ++ pyShowOptInt pidVal
  if hostIsLocal w host then cmd else sshWrap host cmd

/-- Embeds `kill_process(pid_name, host)`: resolves the PID via
`get_pid`, issues `kill -9` (over ssh when remote), raises
`ConnectionError` on a no-route report, then calls `clear_pid`.  The
trace lists every command passed to `subprocess.getoutput`. -/
def kill_process (w : World) (pid_name host : String) :
    Except SysError Unit × List String :=
  match get_pid w pid_name host with
  | (Except.error e, tr) => (Except.error e, tr)
  | (Except.ok pidVal, tr) =>
    let cmd := killCmd w host pidVal
    let output := w.getoutput cmd
    if hasSubstr output "No route to host" then
      (Except.error (SysError.ConnectionError ("Cannot connect to host " ++ host)),
        tr ++ [cmd])
    else
      match clear_pid w pid_name host with
      | (Except.error e, tr2) => (Except.error e, tr ++ [cmd] ++ tr2)
      | (Except.ok _, tr2) => (Except.ok (), tr ++ [cmd] ++ tr2)

/-! ### The instance lock (`make_pid_file`)

`make_pid_file` wraps the third-party `pid.PidFile` context manager,
whose acquisition is a single atomic exclusive file-lock operation
(spec section 5): when the lock for the name is free it is taken and
the PID of the caller written; when it is already held by a live process it
raises `pid.PidFileError` without mutating the filesystem.
`make_pid_file` translates that failure into a `MultipleProcessError`
whose message quotes the task name. -/

/-- Which task names currently have their PID-file lock held. -/
structure LockState where
  held : String → Bool

/-- The `MultipleProcessError` message `make_pid_file` raises for a
task name: the format string interpolates the name between double
quotes. -/
def mpeMsg (pid_name : String) : String :=
  "Process \x22" ++ pid_name ++ "\x22 already running"

/-- Embeds the acquisition step of `make_pid_file(pid_name)`: attempt
the atomic `pid.PidFile` lock; on `pid.PidFileError` raise
`MultipleProcessError` naming the task and leave the state unchanged
(the failed attempt performs no filesystem mutation). -/
def make_pid_file_acquire (s : LockState) (pid_name : String) :
    Except SysError Unit × LockState :=
  if s.held pid_name then
    (Except.error (SysError.MultipleProcessError (mpeMsg pid_name)), s)
  else
    (Except.ok (), { held := fun n => n == pid_name || s.held n })

/-- Two racing acquisitions of the same task name: since each
acquisition is one atomic lock operation, an interleaving is an order
of the two attempts; `aFirst` says whether acquirer A goes first.
Returns the result of A, the result of B, and the final state. -/
def raceAcquire (s : LockState) (pid_name : String) (aFirst : Bool) :
    Except SysError Unit × Except SysError Unit × LockState :=
  if aFirst then
    let ra := make_pid_file_acquire s pid_name
    let rb := make_pid_file_acquire ra.2 pid_name
    (ra.1, rb.1, rb.2)
  else
    let rb := make_pid_file_acquire s pid_name
    let ra := make_pid_file_acquire rb.2 pid_name
    (ra.1, rb.1, ra.2)

/-! ### `NeatCloser` and signal delivery

The constructor of `NeatCloser` installs `self.interrupt` as the
handler for SIGTERM and SIGINT; `interrupt(sig, handler)` prints the
task name followed by the words `received kill signal`, calls
`self.tidy_up()` and then `sys.exit(1)`.  CPython delivers a signal by setting a flag that runs
the registered Python handler at the next interpreter checkpoint of
the main thread — including checkpoints inside an already-running
handler.  The source sets no shutting-down flag and never resets the
handler, so a signal arriving while `interrupt` is still executing
invokes `interrupt` again, nested inside the first invocation.  The
machine below makes this explicit: process state is a stack of
in-progress handler invocations plus a log of observable actions; a
`signal` event pushes a fresh handler invocation (unless the process
has exited), and a `step` event executes the next statement of the
innermost invocation. -/

/-- The statements of the body of `NeatCloser.interrupt`, in source
order: the announcement print, the `tidy_up()` call, and
`sys.exit(1)`. -/
inductive HStep where
  | announce
  | tidy
  | exitCall
  deriving DecidableEq, Repr

/-- Observable actions of a supervised process. -/
inductive Obs where
  | announced (msg : String)
  | tidied
  | exited (code : Nat)
  deriving DecidableEq, Repr

set_option linter.unusedVariables false in
/-- The announcement `interrupt` prints: the format string
interpolates only the task name; the `sig` argument is unused. -/
def interruptMessage (task_name : String) (sig : Nat) : String :=
  task_name ++ " received kill signal"

/-- Body of `NeatCloser.interrupt`, in execution order. -/
def interruptBody : List HStep := [HStep.announce, HStep.tidy, HStep.exitCall]

/-- A supervised process: the task name, the stack of in-progress
handler invocations (innermost first, each with the signal number it
was invoked for and its remaining statements), the log of observable
actions so far, and whether the process has exited. -/
structure ProcState where
  taskName : String
  stack : List (Nat × List HStep)
  log : List Obs
  exited : Bool

/-- The process as `NeatCloser.__init__` leaves it: handlers
installed, nothing running, nothing logged. -/
def initProc (task_name : String) : ProcState :=
  { taskName := task_name, stack := [], log := [], exited := false }

/-- Delivery of SIGINT or SIGTERM: unless the process has exited, the
registered handler (`interrupt`, never reset and guarded by no flag)
starts a fresh invocation, nested inside whatever was running. -/
def deliverSignal (st : ProcState) (sig : Nat) : ProcState :=
  if st.exited then st
  else { st with stack := (sig, interruptBody) :: st.stack }

/-- Execute the next statement of the innermost handler invocation:
`announce` logs the printed message, `tidy` logs a `tidy_up()`
invocation, and `exitCall` is `sys.exit(1)`, whose `SystemExit`
propagates out of every frame and terminates the process with
status 1. -/
def execStep (st : ProcState) : ProcState :=
  if st.exited then st
  else
    match st.stack with
    | [] => st
    | (_, []) :: rest => { st with stack := rest }
    | (sig, HStep.announce :: k) :: rest =>
        { st with stack := (sig, k) :: rest,
                  log := st.log ++ [Obs.announced (interruptMessage st.taskName sig)] }
    | (sig, HStep.tidy :: k) :: rest =>
        { st with stack := (sig, k) :: rest, log := st.log ++ [Obs.tidied] }
    | (_, HStep.exitCall :: _) :: _ =>
        { st with stack := [], log := st.log ++ [Obs.exited 1], exited := true }

/-- An event of a run: delivery of a (termination or interrupt)
signal, or execution of the next statement of the running handler. -/
inductive Event where
  | signal (sig : Nat)
  | step
  deriving DecidableEq, Repr

/-- Apply one event. -/
def procEvent (st : ProcState) : Event → ProcState
  | Event.signal sig => deliverSignal st sig
  | Event.step => execStep st

/-- Run a schedule of events from the freshly constructed process. -/
def runProc (task_name : String) (es : List Event) : ProcState :=
  es.foldl procEvent (initProc task_name)

/-- Number of `tidy_up()` invocations recorded in a log. -/
def tidyCount (log : List Obs) : Nat :=
  log.count Obs.tidied

/-- Number of signal deliveries in a schedule. -/
def signalCount (es : List Event) : Nat :=
  es.countP (fun e => match e with | Event.signal _ => true | Event.step => false)

/-! ### `execute_command` -/

/-- What the spawned shell command does, relative to the timeout:
either `communicate` returns (with the combined output bytes and the
exit status of the child) within the timeout, or `TimeoutExpired` is
raised. -/
inductive CmdOutcome where
  | completed (output : String) (exitCode : Nat)
  | timedOut
  deriving DecidableEq, Repr

/-- Embeds `execute_command(command_string, timeout)`: prints the
command, runs it; when `communicate` returns it prints the indented
output and returns `0` — the exit status of the child is never consulted —
and on `TimeoutExpired` it prints a timeout message and returns `1`.
Result: (return value, lines printed). -/
def execute_command (command_string : String) (timeout : Nat)
    (outcome : CmdOutcome) : Nat × List String :=
  let header := command_string ++ ":"
  match outcome with
  | CmdOutcome.completed output _ =>
      (0, [header, "> " ++ (output.trim.replace "\n" "\n> ")])
  | CmdOutcome.timedOut =>
      (1, [header,
        "Command " ++ command_string ++ " timed out after " ++ toString timeout ++ "s"])

/-! ### `clear_pid` against the local filesystem

For the idempotence claim the `rm` the code issues is interpreted
against an explicit local filesystem (a finite map from paths to
contents), with the output of `rm` modelled from POSIX `rm` as the
code relies on it: silence on success, a
`No such file or directory` diagnostic when the path is absent. -/

/-- A local filesystem: association list from path to file content. -/
abbrev Fs : Type := List (String × String)

/-- Content at a path, if the file exists. -/
def fsLookup (fs : Fs) (p : String) : Option String :=
  match fs.find? (fun q => q.1 == p) with
  | some q => some q.2
  | none => none

/-- Remove a path. -/
def fsRemove (fs : Fs) (p : String) : Fs :=
  fs.filter (fun q => q.1 != p)

/-- The diagnostic `rm` prints for an absent path. -/
def rmDiag (p : String) : String :=
  "rm: cannot remove \x27" ++ p ++ "\x27: No such file or directory"

/-- Output and effect of `rm p` on the local filesystem: removing an
existing file succeeds silently; an absent file leaves the filesystem
unchanged and prints a no-such-file diagnostic. -/
def rmRun (fs : Fs) (p : String) : String × Fs :=
  match fsLookup fs p with
  | some _ => ("", fsRemove fs p)
  | none => (rmDiag p, fs)

/-- Embeds `clear_pid(pid_name)` on the local host, with
the `rm` command passed to `subprocess.getoutput` interpreted against the local
filesystem: same branch structure as `clear_pid` (no-route check,
then return `0` when the output is empty or reports no such file,
else `1`), plus the filesystem after the call. -/
def clear_pid_local (fs : Fs) (configPath pid_name : String) :
    (Except SysError Nat × Fs) :=
  let pid_path := configPath ++ "/pid/" ++ pid_name ++ ".pid"
  let r := rmRun fs pid_path
  let output := r.1
  if hasSubstr output "No route to host" then
    (Except.error (SysError.ConnectionError "Cannot connect to host 127.0.0.1"), fs)
  else if !output.isEmpty && !hasSubstr output "No such file or directory" then
    (Except.ok 1, r.2)
  else
    (Except.ok 0, r.2)

/-- The result of the `(n+1)`-th call in a sequence of repeated
`clear_pid` calls for the same task name, each running on the
filesystem the previous call left behind. -/
def clearIter (fs : Fs) (configPath pid_name : String) :
    Nat → Except SysError Nat × Fs
  | 0 => clear_pid_local fs configPath pid_name
  | n + 1 => clearIter (clear_pid_local fs configPath pid_name).2 configPath pid_name n

/-! ### Helper lemmas -/

/-- The output `get_pid` reads from its single `subprocess.getoutput`
call. -/
def gpOutput (w : World) (pid_name host : String) : String :=
  w.getoutput (getPidCmd w pid_name host)

/-- `get_pid` issues exactly its one probe command, on every path. -/
theorem get_pid_trace (w : World) (pid_name host : String) :
    (get_pid w pid_name host).2 = [getPidCmd w pid_name host] := by
  unfold get_pid
  dsimp only
  split
  · rfl
  · split
    · rfl
    · cases pyInt (w.getoutput (getPidCmd w pid_name host)) <;> rfl

/-! ### C8 -/

/-- C8: a host is treated as local iff it equals the loopback literal
or the IP resolved by `get_local_ip`; `get_local_ip` falls back to the
loopback address whenever the outward-facing probe fails; and this
gate decides whether `get_pid` issues its probe directly or wrapped in
ssh. -/
theorem host_local_iff_loopback_or_local_ip (w : World) (host pid_name : String) :
    (hostIsLocal w host = true ↔ (host = "127.0.0.1" ∨ host = get_local_ip w)) ∧
    get_local_ip { w with localIp := none } = "127.0.0.1" ∧
    (get_pid w pid_name host).2 =
      [if hostIsLocal w host then catCmd w pid_name else sshWrap host (catCmd w pid_name)] := by
  refine ⟨?_, ?_, ?_⟩
  · have e : hostIsLocal w host =
        (host == "127.0.0.1" || (host == get_local_ip w || false)) := rfl
    rw [e]
    simp
  · rfl
  · rw [get_pid_trace]
    rfl

/-! ### C9 -/

/-- C9: the short-command path returns the distinguished status 1 on
timeout, which differs from the status 0 returned for every command
that completes within the timeout. -/
theorem execute_command_timeout_status_distinguished
    (cmd : String) (timeout : Nat) (output : String) (code : Nat) :
    (execute_command cmd timeout CmdOutcome.timedOut).1 = 1 ∧
    (execute_command cmd timeout (CmdOutcome.completed output code)).1 = 0 ∧
    (execute_command cmd timeout CmdOutcome.timedOut).1 ≠
      (execute_command cmd timeout (CmdOutcome.completed output code)).1 := by
  refine ⟨rfl, rfl, ?_⟩
  simp [execute_command]

/-! ### C10 -/

/-- C10: every command that completes within the timeout makes
`execute_command` return 0, whatever the exit status of the command
itself was, so the return value distinguishes only completion from
timeout, never success from failure. -/
theorem execute_command_ignores_exit_code
    (cmd : String) (timeout : Nat) (out1 out2 : String) (code1 code2 : Nat) :
    (execute_command cmd timeout (CmdOutcome.completed out1 code1)).1 = 0 ∧
    (execute_command cmd timeout (CmdOutcome.completed out1 code1)).1 =
      (execute_command cmd timeout (CmdOutcome.completed out2 code2)).1 := by
  exact ⟨rfl, rfl⟩

/-! ### C1 -/

/-- C1: when the instance lock for a task name is free and two
acquisitions race (in either interleaving of the two atomic lock
operations), exactly one succeeds and the other fails with
`MultipleProcessError` naming the task, and the final lock state is
exactly the one the single successful acquisition produced — the
failing acquisition mutated nothing. -/
theorem pid_lock_race_mutual_exclusion
    (s : LockState) (pid_name : String) (aFirst : Bool)
    (h : s.held pid_name = false) :
    ((raceAcquire s pid_name aFirst).1 = Except.ok () ∧
       (raceAcquire s pid_name aFirst).2.1 =
         Except.error (SysError.MultipleProcessError (mpeMsg pid_name)) ∨
     (raceAcquire s pid_name aFirst).1 =
         Except.error (SysError.MultipleProcessError (mpeMsg pid_name)) ∧
       (raceAcquire s pid_name aFirst).2.1 = Except.ok ()) ∧
    (raceAcquire s pid_name aFirst).2.2 =
      { held := fun n => n == pid_name || s.held n } := by
  have hacq1 : make_pid_file_acquire s pid_name =
      (Except.ok (), { held := fun n => n == pid_name || s.held n }) := by
    unfold make_pid_file_acquire
    rw [h]
    rfl
  have hacq2 : make_pid_file_acquire
      { held := fun n => n == pid_name || s.held n } pid_name =
      (Except.error (SysError.MultipleProcessError (mpeMsg pid_name)),
        { held := fun n => n == pid_name || s.held n }) := by
    unfold make_pid_file_acquire
    dsimp only
    have e : (pid_name == pid_name || s.held pid_name) = true := by
      simp
    rw [e]
    rfl
  cases aFirst
  · unfold raceAcquire
    dsimp only
    rw [hacq1]
    dsimp only
    rw [hacq2]
    exact ⟨Or.inr ⟨rfl, rfl⟩, rfl⟩
  · unfold raceAcquire
    dsimp only
    rw [hacq1]
    dsimp only
    rw [hacq2]
    exact ⟨Or.inl ⟨rfl, rfl⟩, rfl⟩

/-- Witness for C1: a concrete race on a free lock. -/
theorem pid_lock_race_mutual_exclusion_witness :
    ((raceAcquire ⟨fun _ => false⟩ "camera" true).1 = Except.ok () ∧
       (raceAcquire ⟨fun _ => false⟩ "camera" true).2.1 =
         Except.error (SysError.MultipleProcessError (mpeMsg "camera")) ∨
     (raceAcquire ⟨fun _ => false⟩ "camera" true).1 =
         Except.error (SysError.MultipleProcessError (mpeMsg "camera")) ∧
       (raceAcquire ⟨fun _ => false⟩ "camera" true).2.1 = Except.ok ()) ∧
    (raceAcquire ⟨fun _ => false⟩ "camera" true).2.2 =
      { held := fun n => n == "camera" || false } :=
  pid_lock_race_mutual_exclusion ⟨fun _ => false⟩ "camera" true rfl

/-! ### C5 -/

/-- A command of the form the ssh wrapper builds for `rm` is never the
one it builds for `cat` on the same record path: the lengths differ. -/
theorem sshWrap_rm_ne_cat (host p : String) :
    sshWrap host ("rm " ++ p) ≠ sshWrap host ("cat " ++ p) := by
  intro hEq
  have hlen := congrArg String.length hEq
  simp only [sshWrap, String.length_append] at hlen
  rw [show String.length "rm " = 3 from rfl, show String.length "cat " = 4 from rfl] at hlen
  omega

/-- C5: for a remote host whose probe reports no network route,
`kill_process` fails with `ConnectionError` (the HostUnreachable
failure), the only command it issues is the probe itself, and in
particular the `clear_pid` command is never issued, so the PID record
is untouched. -/
theorem kill_process_no_route_no_clear (w : World) (pid_name host : String)
    (hremote : hostIsLocal w host = false)
    (hroute : hasSubstr (gpOutput w pid_name host) "No route to host" = true) :
    kill_process w pid_name host =
      (Except.error (SysError.ConnectionError ("Cannot connect to host " ++ host)),
        [getPidCmd w pid_name host]) ∧
    clearCmd w pid_name host ∉ (kill_process w pid_name host).2 := by
  unfold gpOutput at hroute
  have hg : get_pid w pid_name host =
      (Except.error (SysError.ConnectionError ("Cannot connect to host " ++ host)),
        [getPidCmd w pid_name host]) := by
    unfold get_pid
    dsimp only
    rw [hroute]
    rfl
  have hk : kill_process w pid_name host =
      (Except.error (SysError.ConnectionError ("Cannot connect to host " ++ host)),
        [getPidCmd w pid_name host]) := by
    unfold kill_process
    rw [hg]
  refine ⟨hk, ?_⟩
  rw [hk]
  intro hmem
  rcases List.mem_singleton.mp hmem with hEq
  have hclear : clearCmd w pid_name host = sshWrap host ("rm " ++ pidPath w pid_name) := by
    unfold clearCmd
    dsimp only
    rw [hremote]
    rfl
  have hprobe : getPidCmd w pid_name host = sshWrap host ("cat " ++ pidPath w pid_name) := by
    unfold getPidCmd catCmd
    rw [hremote]
    rfl
  rw [hclear, hprobe] at hEq
  exact sshWrap_rm_ne_cat host (pidPath w pid_name) hEq

/-- A remote host with no network route: every command reports no
route (as ssh does before anything runs on the far side). -/
def wNoRoute : World :=
  { localIp := some "10.0.0.1",
    configPath := "/root/.config/gtecs",
    getoutput := fun _ => "ssh: connect to host 10.0.0.9 port 22: No route to host" }

/-- Witness for C5 at a concrete unreachable host. -/
theorem kill_process_no_route_no_clear_witness :
    kill_process wNoRoute "foo" "10.0.0.9" =
      (Except.error (SysError.ConnectionError ("Cannot connect to host " ++ "10.0.0.9")),
        [getPidCmd wNoRoute "foo" "10.0.0.9"]) ∧
    clearCmd wNoRoute "foo" "10.0.0.9" ∉ (kill_process wNoRoute "foo" "10.0.0.9").2 :=
  kill_process_no_route_no_clear wNoRoute "foo" "10.0.0.9" (by decide) (by decide)

/-! ### C4 -/

/-- A record file whose content is the negative integer -5. -/
def wNegRecord : World :=
  { localIp := some "10.0.0.1",
    configPath := "/root/.config/gtecs",
    getoutput := fun _ => "-5" }

/-- C4 counterexample: the PID-record file exists and its content,
-5, is not a non-negative integer, yet `get_pid` does not fail at all:
the int conversion accepts the sign and the value -5 is returned as
the PID.  This refutes the claim that `get_pid` fails with a
`MalformedRecord` error whenever the content is not a single
non-negative integer. -/
theorem get_pid_negative_content_counterexample :
    get_pid wNegRecord "foo" "127.0.0.1" =
      (Except.ok (some (-5)), ["cat /root/.config/gtecs/pid/foo.pid"]) ∧
    (-5 : Int) < 0 := by
  refine ⟨?_, by decide⟩
  rfl

/-- C4 amended: when the record file exists (no no-such-file report)
and its content does not parse as an optionally-signed decimal
integer, `get_pid` raises the untyped Python builtin `ValueError`
coming straight out of the int conversion — the module defines no
distinct MalformedRecord failure. -/
theorem get_pid_unparseable_raises_value_error (w : World) (pid_name host : String)
    (h1 : hasSubstr (gpOutput w pid_name host) "No route to host" = false)
    (h2 : hasSubstr (gpOutput w pid_name host) "No such file or directory" = false)
    (h3 : pyInt (gpOutput w pid_name host) = none) :
    get_pid w pid_name host =
      (Except.error (SysError.ValueError (gpOutput w pid_name host)),
        [getPidCmd w pid_name host]) := by
  unfold gpOutput at h1 h2 h3 ⊢
  unfold get_pid
  dsimp only
  rw [h1, h2, h3]
  rfl

/-- A record file holding unparseable garbage. -/
def wGarbageRecord : World :=
  { localIp := some "10.0.0.1",
    configPath := "/root/.config/gtecs",
    getoutput := fun _ => "whoops" }

/-- Witness for the amended C4 at a concrete garbage record. -/
theorem get_pid_unparseable_raises_value_error_witness :
    get_pid wGarbageRecord "foo" "127.0.0.1" =
      (Except.error (SysError.ValueError (gpOutput wGarbageRecord "foo" "127.0.0.1")),
        [getPidCmd wGarbageRecord "foo" "127.0.0.1"]) :=
  get_pid_unparseable_raises_value_error wGarbageRecord "foo" "127.0.0.1"
    (by decide) (by decide) (by decide)

/-! ### C3 -/

/-- A world with no PID record for task foo on the local host: the
`cat` probe reports no such file, and the shell rejects the malformed
kill command the code then builds. -/
def wNoRecord : World :=
  { localIp := some "10.2.3.4",
    configPath := "/home/gtecs/.config/gtecs",
    getoutput := fun cmd =>
      if cmd = "cat /home/gtecs/.config/gtecs/pid/foo.pid" then
        "cat: /home/gtecs/.config/gtecs/pid/foo.pid: No such file or directory"
      else if cmd = "kill -9 None" then
        "kill: None: arguments must be process or job IDs"
      else if cmd = "rm /home/gtecs/.config/gtecs/pid/foo.pid" then
        "rm: cannot remove \x27/home/gtecs/.config/gtecs/pid/foo.pid\x27: No such file or directory"
      else "" }

set_option maxRecDepth 100000 in
/-- C3 counterexample: with no PID record present, `get_pid` returns
`None`, yet `kill_process` raises nothing like NoSuchProcess — it
formats `None` into the termination command, issues `kill -9 None`,
goes on to clear, and returns success.  This refutes the claim that it
fails with NoSuchProcess and issues no termination command. -/
theorem kill_process_none_pid_counterexample :
    (get_pid wNoRecord "foo" "127.0.0.1").1 = Except.ok none ∧
    kill_process wNoRecord "foo" "127.0.0.1" =
      (Except.ok (),
        ["cat /home/gtecs/.config/gtecs/pid/foo.pid",
         "kill -9 None",
         "rm /home/gtecs/.config/gtecs/pid/foo.pid"]) := by
  constructor
  · rfl
  · rfl

/-- C3 amended: `kill_process` resolves the PID via `get_pid` first,
but a `None` result is not a failure: the code interpolates it into
the command string and issues the (malformed) termination command
`kill -9 None`; no NoSuchProcess check or error exists in the
module. -/
theorem kill_process_none_pid_issues_kill_none (w : World) (pid_name host : String)
    (h : (get_pid w pid_name host).1 = Except.ok none) :
    killCmd w host none ∈ (kill_process w pid_name host).2 := by
  rcases hg : get_pid w pid_name host with ⟨r, tr⟩
  rw [hg] at h
  dsimp only at h
  subst h
  unfold kill_process
  rw [hg]
  dsimp only
  split
  · simp
  · rcases hc : clear_pid w pid_name host with ⟨r2, tr2⟩
    cases r2 <;> simp

set_option maxRecDepth 100000 in
/-- Witness for the amended C3: the concrete no-record world. -/
theorem kill_process_none_pid_issues_kill_none_witness :
    killCmd wNoRecord "127.0.0.1" none ∈ (kill_process wNoRecord "foo" "127.0.0.1").2 :=
  kill_process_none_pid_issues_kill_none wNoRecord "foo" "127.0.0.1" rfl

/-! ### C6 -/

/-- The `rm` diagnostic for an absent path always contains the
no-such-file phrase `clear_pid` tests for. -/
theorem rmDiag_has_no_such_file (p : String) :
    hasSubstr (rmDiag p) "No such file or directory" = true := by
  unfold hasSubstr rmDiag
  rw [decide_eq_true_eq]
  have hsplit : ("rm: cannot remove \x27" ++ p ++ "\x27: No such file or directory").toList
      = ("rm: cannot remove \x27" ++ p).toList ++ ("\x27: No such file or directory").toList := by
    simp [String.toList]
  rw [hsplit]
  have h1 : "No such file or directory".toList <:+:
      ("\x27: No such file or directory").toList := by
    decide
  exact h1.trans (List.suffix_append _ _).isInfix

/-- One `clear_pid` call on the local host with the record absent:
`rm` reports no such file, the code maps that to success 0, and the
filesystem is unchanged.  The side condition says the `rm` diagnostic
for this path does not itself contain the no-route phrase (true for
every real record path; a pathological task name could embed the
phrase in the diagnostic text). -/
theorem clear_pid_local_absent (fs : Fs) (configPath pid_name : String)
    (h : fsLookup fs (configPath ++ "/pid/" ++ pid_name ++ ".pid") = none)
    (hnr : hasSubstr (rmDiag (configPath ++ "/pid/" ++ pid_name ++ ".pid"))
      "No route to host" = false) :
    clear_pid_local fs configPath pid_name = (Except.ok 0, fs) := by
  unfold clear_pid_local rmRun
  dsimp only
  rw [h]
  dsimp only
  rw [hnr, rmDiag_has_no_such_file]
  rfl

/-- C6: clearing an absent PID record succeeds (returns 0, not an
error) on the first call and on every subsequent call, and leaves the
filesystem exactly as it was. -/
theorem clear_pid_absent_idempotent (fs : Fs) (configPath pid_name : String) (n : Nat)
    (h : fsLookup fs (configPath ++ "/pid/" ++ pid_name ++ ".pid") = none)
    (hnr : hasSubstr (rmDiag (configPath ++ "/pid/" ++ pid_name ++ ".pid"))
      "No route to host" = false) :
    clearIter fs configPath pid_name n = (Except.ok 0, fs) := by
  induction n with
  | zero => exact clear_pid_local_absent fs configPath pid_name h hnr
  | succ n ih =>
      unfold clearIter
      rw [clear_pid_local_absent fs configPath pid_name h hnr]
      exact ih

set_option maxRecDepth 100000 in
/-- Witness for C6: an empty filesystem, two consecutive clears. -/
theorem clear_pid_absent_idempotent_witness :
    clearIter [] "/home/gtecs/.config/gtecs" "foo" 1 = (Except.ok 0, []) :=
  clear_pid_absent_idempotent [] "/home/gtecs/.config/gtecs" "foo" 1 rfl (by decide)

/-! ### C2 and C7: the shutdown handler -/

/-- Pending `tidy_up()` calls in the stack of in-progress handler
invocations. -/
def stackTidies (stk : List (Nat × List HStep)) : Nat :=
  (stk.map (fun p => p.2.count HStep.tidy)).sum

/-- Completed plus pending `tidy_up()` calls of a process state. -/
def pmeasure (st : ProcState) : Nat :=
  tidyCount st.log + stackTidies st.stack

/-- Delivering one signal adds at most one pending `tidy_up()` call
(the single one in the handler body). -/
theorem pmeasure_deliverSignal (st : ProcState) (sig : Nat) :
    pmeasure (deliverSignal st sig) ≤ pmeasure st + 1 := by
  unfold deliverSignal
  split
  · omega
  · simp only [pmeasure, stackTidies, List.map_cons, List.sum_cons]
    have hib : interruptBody.count HStep.tidy = 1 := rfl
    simp only [hib]
    omega

/-- Executing one handler statement never increases the completed
plus pending `tidy_up()` count: the `tidy` statement converts one
pending call into one completed call, every other statement leaves or
lowers the total. -/
theorem pmeasure_execStep (st : ProcState) : pmeasure (execStep st) ≤ pmeasure st := by
  unfold execStep
  split
  · exact Nat.le_refl _
  · rcases hst : st.stack with _ | ⟨⟨sig, body⟩, rest⟩
    · simp [hst]
    · rcases body with _ | ⟨hs, k⟩
      · simp [hst, pmeasure, stackTidies]
      · cases hs <;>
          (simp [hst, pmeasure, stackTidies, tidyCount, List.count_append,
            List.count_cons, List.count_nil, beq_iff_eq]
           try omega)

/-- Over any event sequence, the completed plus pending `tidy_up()`
count grows by at most the number of signals delivered. -/
theorem pmeasure_foldl (es : List Event) :
    ∀ st : ProcState, pmeasure (es.foldl procEvent st) ≤ pmeasure st + signalCount es := by
  induction es with
  | nil =>
      intro st
      simp [signalCount]
  | cons e es ih =>
      intro st
      rw [List.foldl_cons]
      cases e with
      | signal sig =>
          have hrec := ih (procEvent st (Event.signal sig))
          have hstep : pmeasure (procEvent st (Event.signal sig)) ≤ pmeasure st + 1 :=
            pmeasure_deliverSignal st sig
          have hcount : signalCount (Event.signal sig :: es) = signalCount es + 1 := by
            simp [signalCount, List.countP_cons]
          omega
      | step =>
          have hrec := ih (procEvent st Event.step)
          have hstep : pmeasure (procEvent st Event.step) ≤ pmeasure st :=
            pmeasure_execStep st
          have hcount : signalCount (Event.step :: es) = signalCount es := by
            simp [signalCount, List.countP_cons]
          omega

/-- C2 counterexample schedule: a first signal, the handler announces
and runs `tidy_up()`, then a second signal arrives before `sys.exit`
executes; the handler is re-entered and `tidy_up()` runs again. -/
def reentrySchedule : List Event :=
  [Event.signal 15, Event.step, Event.step,
   Event.signal 2, Event.step, Event.step, Event.step]

/-- C2 counterexample: two signals delivered before cleanup completes
make `tidy_up()` run twice — the second signal is not ignored but
re-enters `interrupt` (the source keeps the handler installed and sets
no shutting-down flag), refuting the at-most-once claim. -/
theorem tidy_up_reentry_counterexample :
    tidyCount (runProc "daemon" reentrySchedule).log = 2 ∧
    signalCount reentrySchedule = 2 := by
  constructor
  · rfl
  · rfl

/-- C2 amended: `tidy_up()` runs at most once per delivered signal —
each invocation is triggered by its own signal delivery; but nothing
ignores signals that arrive during cleanup, so n signals before exit
can run it up to n times. -/
theorem tidy_up_at_most_once_per_signal (task : String) (es : List Event) :
    tidyCount (runProc task es).log ≤ signalCount es := by
  have h := pmeasure_foldl es (initProc task)
  have h0 : pmeasure (initProc task) = 0 := rfl
  have hle : tidyCount ((es.foldl procEvent (initProc task)).log) ≤
      pmeasure (es.foldl procEvent (initProc task)) := Nat.le_add_right _ _
  unfold runProc
  omega

/-- C7 counterexample: the announcement printed on SIGINT (2) is
identical to the one printed on SIGTERM (15) — the message carries
only the task name, never the signal received, so the claimed
announcement of the signal does not happen. -/
theorem interrupt_message_ignores_signal_counterexample :
    interruptMessage "foo" 2 = interruptMessage "foo" 15 ∧
    (runProc "foo" [Event.signal 2, Event.step, Event.step, Event.step]).log =
      (runProc "foo" [Event.signal 15, Event.step, Event.step, Event.step]).log := by
  constructor
  · rfl
  · rfl

/-- C7 amended: on first receipt of an interrupt or termination
signal the handler performs, in order: (a) announce the task name
(with a generic kill-signal message that does not include which
signal arrived), (b) run `tidy_up()` synchronously to completion,
(c) terminate the process with the non-zero exit status 1. -/
theorem interrupt_sequence_announce_tidy_exit (task : String) (sig : Nat) :
    (runProc task [Event.signal sig, Event.step, Event.step, Event.step]).log =
      [Obs.announced (task ++ " received kill signal"), Obs.tidied, Obs.exited 1] ∧
    (runProc task [Event.signal sig, Event.step, Event.step, Event.step]).exited = true ∧
    (1 : Nat) ≠ 0 := by
  refine ⟨rfl, rfl, by omega⟩

end GtecsCommon
